import Mathlib

/-!
Shallow embedding of the aggregation core of `analytics_site/main.py`
(web_data_analytic): URL normalization, acquisition-source classification,
the Sankey flow-graph builder (`get_sankey_data`) and the KPI aggregator
(`get_analytics_stats`), together with the fragments of Python's
`urllib.parse` (`urlparse`, `parse_qs`) that those functions call.
All definitions are executable; machine behaviour (dict insertion order,
truthiness, `int()` casts raising on non-numeric input) is modelled
explicitly.
-/

/-- ASCII lower-casing of a string (Python's `str.lower()` on ASCII input,
in a kernel-reducible form). -/
def strLower (s : String) : String := String.mk (s.data.map Char.toLower)

/-- Python's `s.startswith(pre)` (kernel-reducible form). -/
def strStarts (s pre : String) : Bool := pre.data.isPrefixOf s.data

/-- Substring test on char lists: Python's `pat in s`. -/
def chListHas (pat : List Char) : List Char → Bool
  | [] => pat.isEmpty
  | c :: rest => pat.isPrefixOf (c :: rest) || chListHas pat rest

/-- Python's `pat in s` for strings. -/
def strHas (s pat : String) : Bool := chListHas pat.data s.data

/-- Split a char list at the first occurrence of `c` (Python `split(c, 1)`);
`none` when `c` is absent. -/
def splitFirst (c : Char) : List Char → Option (List Char × List Char)
  | [] => none
  | x :: rest =>
    if x = c then some ([], rest)
    else (splitFirst c rest).map (fun p => (x :: p.1, p.2))

/-- Split a char list at every occurrence of `c`, keeping empty pieces
(Python `str.split(c)`). -/
def splitAll (c : Char) : List Char → List (List Char)
  | [] => [[]]
  | x :: rest =>
    let r := splitAll c rest
    if x = c then [] :: r
    else
      match r with
      | [] => [[x]]
      | h :: t => (x :: h) :: t

/-- Characters CPython's `urlsplit` accepts inside a URL scheme. -/
def isSchemeChar (c : Char) : Bool := c.isAlphanum || c == '+' || c == '-' || c == '.'

/-- The components `urllib.parse.urlparse` returns (the ones the repository
reads: `scheme`, `netloc`, `path`, `query`; `fragment` kept for fidelity). -/
structure UrlParts where
  scheme : String
  netloc : String
  path : String
  query : String
  fragment : String
deriving DecidableEq, Repr

/-- Model of `urllib.parse.urlparse` restricted to what the repository
relies on: strip leading/trailing C0-control/space characters and remove
tab/CR/LF; split off a `scheme:` prefix when it starts with an ASCII letter
and uses only scheme characters; after `//` read the netloc up to the next
`/`, `?` or `#` and raise `Invalid IPv6 URL` on an unbalanced bracket;
then split off fragment (`#`) and query (`?`). Percent escapes are kept
verbatim, as in CPython. -/
def urlparse (url : String) : Except String UrlParts :=
  let cs0 := (url.data.dropWhile (fun c => decide (c.toNat ≤ 32))).reverse
  let cs1 := (cs0.dropWhile (fun c => decide (c.toNat ≤ 32))).reverse
  let cs := cs1.filter (fun c => !(c == '\t' || c == '\n' || c == '\r'))
  let schemeSplit : String × List Char :=
    match splitFirst ':' cs with
    | some (pre, post) =>
      match pre with
      | [] => ("", cs)
      | c :: pcs =>
        if c.isAlpha && (c :: pcs).all isSchemeChar then
          (String.mk ((c :: pcs).map Char.toLower), post)
        else ("", cs)
    | none => ("", cs)
  let scheme := schemeSplit.1
  let rest := schemeSplit.2
  let netlocSplit : List Char × List Char :=
    match rest with
    | '/' :: '/' :: tail =>
      (tail.takeWhile (fun c => !(c == '/' || c == '?' || c == '#')),
       tail.dropWhile (fun c => !(c == '/' || c == '?' || c == '#')))
    | _ => ([], rest)
  let netloc := netlocSplit.1
  if (netloc.contains '[' && !netloc.contains ']')
      || (netloc.contains ']' && !netloc.contains '[') then
    Except.error "Invalid IPv6 URL"
  else
    let fragSplit : List Char × List Char :=
      match splitFirst '#' netlocSplit.2 with
      | some (a, b) => (a, b)
      | none => (netlocSplit.2, [])
    let querySplit : List Char × List Char :=
      match splitFirst '?' fragSplit.1 with
      | some (a, b) => (a, b)
      | none => (fragSplit.1, [])
    Except.ok ⟨scheme, String.mk netloc, String.mk querySplit.1,
      String.mk querySplit.2, String.mk fragSplit.2⟩

/-- Hex digit value, for percent decoding. -/
def hexVal (c : Char) : Option Nat :=
  if '0' ≤ c ∧ c ≤ '9' then some (c.toNat - 48)
  else if 'a' ≤ c ∧ c ≤ 'f' then some (c.toNat - 87)
  else if 'A' ≤ c ∧ c ≤ 'F' then some (c.toNat - 55)
  else none

/-- Python's `unquote_plus` on the ASCII fragment the repository exercises:
`+` becomes a space; a valid `%hh` escape becomes the character with that
code; an invalid escape is kept verbatim. -/
def unquotePlusList : List Char → List Char
  | [] => []
  | '+' :: rest => ' ' :: unquotePlusList rest
  | '%' :: a :: b :: rest =>
    match hexVal a, hexVal b with
    | some x, some y => Char.ofNat (16 * x + y) :: unquotePlusList rest
    | _, _ => '%' :: unquotePlusList (a :: b :: rest)
  | c :: rest => c :: unquotePlusList rest

/-- Python's `parse_qsl(qs)` with default options: split on `&`; skip empty
pieces, pieces with no `=`, and pieces with an empty value; unquote names
and values. -/
def parse_qsl (qs : List Char) : List (String × String) :=
  (splitAll '&' qs).filterMap (fun nv =>
    if nv.isEmpty then none
    else
      match splitFirst '=' nv with
      | none => none
      | some (n, v) =>
        if v.isEmpty then none
        else some (String.mk (unquotePlusList n), String.mk (unquotePlusList v)))

/-- Insertion-ordered multimap append: Python's
`dict.setdefault(k, []).append(v)` pattern, also `defaultdict(list)`. -/
def appendAt {β : Type} : List (String × List β) → String → β → List (String × List β)
  | [], k, v => [(k, [v])]
  | (k', vs) :: rest, k, v =>
    if k' = k then (k', vs ++ [v]) :: rest else (k', vs) :: appendAt rest k v

/-- Python's `parse_qs(qs)`: group the `parse_qsl` pairs by name, keeping
first-seen key order and per-key value order. -/
def parse_qs (qs : String) : List (String × List String) :=
  (parse_qsl qs.data).foldl (fun acc p => appendAt acc p.1 p.2) []

/-- Lookup in a `parse_qs` result (Python `d['k']` / `'k' in d`). -/
def qsLookup (l : List (String × List String)) (k : String) : Option (List String) :=
  (l.find? (fun p => p.1 == k)).map (fun p => p.2)

/-- Model of `normalize_url` from `main.py` lines 84-97: parse failure gives
`"Unknown"`; empty path or `/` gives `"Home"`; then the ordered prefix
table; otherwise the literal path. -/
def normalize_url (url : String) : String :=
  match urlparse url with
  | Except.error _ => "Unknown"
  | Except.ok parsed =>
    let path := parsed.path
    if path = "/" ∨ path = "" then "Home"
    else if strStarts path "/course/" then "Course Detail"
    else if strStarts path "/courses" then "Course List"
    else if strStarts path "/rankings" then "Rankings"
    else if strStarts path "/login" then "Login"
    else if strStarts path "/register" then "Register"
    else if strStarts path "/admin" then "Admin"
    else path

/-- Python's `str.capitalize()` (ASCII): first char upper-cased, rest
lower-cased. -/
def pyCapitalize (s : String) : String :=
  match s.data with
  | [] => ""
  | c :: rest => String.mk (Char.toUpper c :: rest.map Char.toLower)

/-- The UTM mapping of `main.py` lines 105-109, applied to the already
lower-cased `utm_source` value. -/
def utmMap (source : String) : String :=
  if source = "wechat" then "WeChat"
  else if source = "dingtalk" then "DingTalk"
  else if source = "google" then "Google Search"
  else pyCapitalize source ++ " (UTM)"

/-- Step 1 of `normalize_referrer` (lines 100-111): the `utm_source` query
parameter of the current URL, if the URL parses and the parameter is
present; a parse error falls through silently. -/
def utmStep (current_url : String) : Option String :=
  match urlparse current_url with
  | Except.error _ => none
  | Except.ok p =>
    match qsLookup (parse_qs p.query) "utm_source" with
    | some (v :: _) => some (utmMap (strLower v))
    | _ => none

/-- Step 2 of `normalize_referrer` (lines 113-119): user-agent sniffing on
the lower-cased user agent; an empty user agent is skipped. -/
def uaStep (user_agent : String) : Option String :=
  if user_agent = "" then none
  else
    let ua := strLower user_agent
    if strHas ua "micromessenger" then some "WeChat"
    else if strHas ua "dingtalk" then some "DingTalk"
    else if strHas ua "qq/" then some "QQ"
    else if strHas ua "weibo" then some "Weibo"
    else none

/-- Step 3 of `normalize_referrer` (lines 121-144): empty referrer means
direct entry; equal netlocs mean internal navigation; then the ordered
referrer-host substring table, falling back to the bare netloc; a parse
error of either URL here gives `"Unknown"`. -/
def refStep (referrer current_url : String) : String :=
  if referrer = "" then "Direct Entry"
  else
    match urlparse referrer, urlparse current_url with
    | Except.ok pr, Except.ok pc =>
      if pr.netloc = pc.netloc then "Internal"
      else if strHas pr.netloc "google" then "Google Search"
      else if strHas pr.netloc "bing" then "Bing Search"
      else if strHas pr.netloc "twitter" || strHas pr.netloc "t.co" then "Twitter"
      else if strHas pr.netloc "facebook" then "Facebook"
      else if strHas pr.netloc "baidu" then "Baidu"
      else if strHas pr.netloc "dingtalk" then "DingTalk"
      else if strHas pr.netloc "weixin" || strHas pr.netloc "wechat" then "WeChat"
      else pr.netloc
    | _, _ => "Unknown"

/-- Model of `normalize_referrer` from `main.py` lines 99-144: UTM override first,
then user-agent sniffing, then the referrer rules. `None` arguments are
modelled as the empty string, exactly as the call sites pass them. -/
def normalize_referrer (referrer current_url user_agent : String) : String :=
  match utmStep current_url with
  | some r => r
  | none =>
    match uaStep user_agent with
    | some r => r
    | none => refStep referrer current_url

/-- The part of `netloc` after the last `@` (CPython `rpartition('@')[2]`). -/
def afterLastAt (l : List Char) : List Char :=
  (l.reverse.takeWhile (fun c => !(c == '@'))).reverse

/-- Python's `ParseResult.hostname` for non-bracketed netlocs: drop the
userinfo, drop the `:port` suffix, lower-case; `none` when empty. -/
def hostname (p : UrlParts) : Option String :=
  let hostinfo := afterLastAt p.netloc.data
  let host := hostinfo.takeWhile (fun c => !(c == ':'))
  if host.isEmpty then none else some (String.mk (host.map Char.toLower))

/-- The hostname of a URL string, `none` when it does not parse or has no
host. -/
def urlHost (u : String) : Option String :=
  match urlparse u with
  | Except.ok p => hostname p
  | Except.error _ => none

example : normalize_url "https://x.com/" = "Home" := by decide
example : normalize_url "https://x.com/course/42/" = "Course Detail" := by decide
example : normalize_url "not a url" = "not a url" := by decide
example : normalize_url "http://[::1" = "Unknown" := by decide
example : normalize_referrer "" "https://x.com/?utm_source=google" "" = "Google Search" := by
  decide
example : normalize_referrer "https://x.com/page2" "https://x.com/page1" "" = "Internal" := by
  decide
example : normalize_referrer "" "https://x.com/" "" = "Direct Entry" := by decide
example : normalize_referrer "https://x.com:8080/page2" "https://x.com/page1" "" = "x.com:8080" := by
  decide
example : urlHost "https://x.com:8080/page2" = some "x.com" := by decide

deriving instance DecidableEq for Except

/-- A JSON-like scalar stored in an event's `data` bag (the repository only
ever reads integers and strings out of it). -/
inductive PyVal where
  | int (n : Int)
  | str (s : String)
deriving DecidableEq, Repr

/-- Python truthiness of a `data` value (`if utm_source:`). -/
def pyTruthy : PyVal → Bool
  | PyVal.int n => !(n = 0 : Bool)
  | PyVal.str s => !(s = "" : Bool)

/-- Python `str(v)` for the two scalar shapes. -/
def pyStr : PyVal → String
  | PyVal.int n => toString n
  | PyVal.str s => s

/-- Parse a Python `int()` string literal: optional sign then at least one
ASCII digit. -/
def parseIntStr (s : String) : Option Int :=
  let digits : List Char → Option Nat := fun l =>
    if l.isEmpty ∨ ¬ l.all Char.isDigit then none
    else some (l.foldl (fun acc c => 10 * acc + (c.toNat - 48)) 0)
  match s.data with
  | '-' :: rest => (digits rest).map (fun n => -(n : Int))
  | '+' :: rest => (digits rest).map (fun n => (n : Int))
  | l => (digits l).map (fun n => (n : Int))

/-- Python's `int(v)`: identity on ints, digit parsing on strings, raising
`ValueError` (modelled as `Except.error`) on non-numeric strings. -/
def pyIntCast : PyVal → Except String Int
  | PyVal.int n => Except.ok n
  | PyVal.str s =>
    match parseIntStr s with
    | some n => Except.ok n
    | none => Except.error ("invalid literal for int() with base 10: " ++ s)

/-- An analytics event as the aggregation endpoints read it from the
database (`models.Event`); `none` models SQL `NULL`. -/
structure Event where
  event_type : String
  url : Option String := none
  referrer : Option String := none
  user_agent : Option String := none
  session_id : String := ""
  visitor_id : String := ""
  data : Option (List (String × PyVal)) := none
deriving DecidableEq, Repr

/-- Python truthiness of an event's `data` bag (`if e.data:`): both a NULL
bag and an empty dict are falsy. -/
def pyTruthyData : Option (List (String × PyVal)) → Bool
  | none => false
  | some d => !d.isEmpty

/-- Python `d.get(k)`: first binding of `k`, if any. -/
def dictGet (d : List (String × PyVal)) (k : String) : Option PyVal :=
  (d.find? (fun p => p.1 == k)).map (fun p => p.2)

/-- The classifier exactly as every per-event call site invokes it:
`normalize_referrer(e.referrer or "", e.url or "", e.user_agent or "")`. -/
def classify (e : Event) : String :=
  normalize_referrer (e.referrer.getD "") (e.url.getD "") (e.user_agent.getD "")

/-! ## Sankey flow graph (`get_sankey_data`, `main.py` lines 146-212) -/

/-- Per-session accumulation state of the first loop of `get_sankey_data`:
`sessions` is the `defaultdict(list)` of normalized URLs, `referrers` the
first-touch source per session; both keep dict insertion order. -/
structure FlowAcc where
  sessions : List (String × List String)
  referrers : List (String × String)
deriving DecidableEq, Repr

/-- Lookup of a session's captured first-touch source
(`session_referrers.get(session_id)`). -/
def lookupRef : List (String × String) → String → Option String
  | [], _ => none
  | (k, v) :: rest, sid => if k = sid then some v else lookupRef rest sid

/-- One iteration of the first loop of `get_sankey_data` (lines 155-169):
append the event's normalized URL to its session's path, and record the
classified source only when the session has none yet. -/
def flowStep (acc : FlowAcc) (e : Event) : FlowAcc :=
  let raw_url := e.url.getD ""
  let norm_url := normalize_url raw_url
  let sessions := appendAt acc.sessions e.session_id norm_url
  let referrers :=
    if (lookupRef acc.referrers e.session_id).isSome then acc.referrers
    else acc.referrers ++ [(e.session_id, classify e)]
  FlowAcc.mk sessions referrers

/-- The first loop of `get_sankey_data` over the timestamp-ordered pageview
events (the route's query filters `event_type == 'pageview'` and orders by
timestamp; the model receives that list and applies the same filter). -/
def build_flow_acc (events : List Event) : FlowAcc :=
  (events.filter (fun e => e.event_type == "pageview")).foldl flowStep (FlowAcc.mk [] [])

/-- Bump a counter in an insertion-ordered tally
(`defaultdict(int)[k] += 1`). -/
def bump {α : Type} [DecidableEq α] : List (α × Nat) → α → List (α × Nat)
  | [], k => [(k, 1)]
  | (k', n) :: rest, k =>
    if k' = k then (k', n + 1) :: rest else (k', n) :: bump rest k

/-- The links/nodes under construction in the second loop of
`get_sankey_data`. -/
structure FlowGraph where
  links : List ((String × String) × Nat)
  nodes : Finset String
deriving DecidableEq

/-- The statement triple `links_count[(s, t)] += 1; nodes.add(s); nodes.add(t)`
repeated at each stage of the second loop. -/
def addLink (g : FlowGraph) (s t : String) : FlowGraph :=
  FlowGraph.mk (bump g.links (s, t)) (insert s (insert t g.nodes))

/-- Stage 0 of the second loop (lines 177-184): the Source→Step1 link,
suppressed only when the captured source is `"Internal"`. -/
def stage0 (referrers : List (String × String)) (sid : String) (urls : List String)
    (g : FlowGraph) : FlowGraph :=
  match urls with
  | [] => g
  | u0 :: _ =>
    let referrer := (lookupRef referrers sid).getD "Direct Entry"
    if referrer = "Internal" then g
    else addLink g (referrer ++ " (Source)") (u0 ++ " (Step 1)")

/-- Stage 1 of the second loop (lines 186-193): the Step1→Step2 link,
guarded by `s != t` on the suffixed node labels. -/
def stage1 (urls : List String) (g : FlowGraph) : FlowGraph :=
  match urls with
  | u0 :: u1 :: _ =>
    let s := u0 ++ " (Step 1)"
    let t := u1 ++ " (Step 2)"
    if s = t then g else addLink g s t
  | _ => g

/-- Stage 2 of the second loop (lines 195-202): the Step2→Step3 link,
guarded by `s2 != t2` on the suffixed node labels. -/
def stage2 (urls : List String) (g : FlowGraph) : FlowGraph :=
  match urls with
  | _ :: u1 :: u2 :: _ =>
    let s2 := u1 ++ " (Step 2)"
    let t2 := u2 ++ " (Step 3)"
    if s2 = t2 then g else addLink g s2 t2
  | _ => g

/-- The body of the second loop for one session (lines 174-202); an empty
path is skipped (`if not urls: continue`). -/
def sessionLinks (referrers : List (String × String)) (g : FlowGraph) (sid : String)
    (urls : List String) : FlowGraph :=
  match urls with
  | [] => g
  | _ => stage2 urls (stage1 urls (stage0 referrers sid urls g))

/-- The second loop of `get_sankey_data` (lines 171-202): fold the sessions
in dict order into links and nodes, starting from empty. -/
def build_flow_graph (referrers : List (String × String))
    (sessions : List (String × List String)) : FlowGraph :=
  sessions.foldl (fun g p => sessionLinks referrers g p.1 p.2) (FlowGraph.mk [] ∅)

/-- Model of `get_sankey_data` (lines 146-212): accumulate per-session paths and
first-touch sources, then build the weighted link multigraph. -/
def get_sankey_data (events : List Event) : FlowGraph :=
  let acc := build_flow_acc events
  build_flow_graph acc.referrers acc.sessions

/-- Count of a link in a built graph (the `value` the route serializes). -/
def linkCount (g : FlowGraph) (k : String × String) : Option Nat :=
  (g.links.find? (fun p => p.1 == k)).map (fun p => p.2)

/-! ## KPI aggregation (`get_analytics_stats`, `main.py` lines 228-301) -/

/-- One value of the stats report dict: a count, the rounded engagement
average, or a name/value ranking list. -/
inductive StatVal where
  | nat (n : Nat)
  | rat (q : ℚ)
  | pairs (l : List (String × Nat))
deriving DecidableEq, Repr

/-- Round half to even to an integer (the rounding Python's `round`
applies to the exactly-represented values arising here), computed on the
reduced numerator and denominator: with `q = ⌊x⌋` and remainder `r`,
compare `2r` against the denominator. -/
def roundHalfEven (x : ℚ) : ℤ :=
  let a := x.num
  let b := (x.den : ℤ)
  let q := Int.fdiv a b
  let r := a - q * b
  if 2 * r < b then q
  else if b < 2 * r then q + 1
  else if q % 2 = 0 then q else q + 1

/-- Python's `round(x, 1)`: round `10 x` half to even, then divide by 10. -/
def pyRound1 (x : ℚ) : ℚ :=
  Rat.divInt (roundHalfEven (Rat.divInt (x.num * 10) (x.den : ℤ))) 10

/-- Python's `len(set(e.session_id for e in events))`. -/
def nSessions (events : List Event) : Nat :=
  ((events.map (fun e => e.session_id)).dedup).length

/-- Python's `len(set(e.visitor_id for e in events))`. -/
def nUsers (events : List Event) : Nat :=
  ((events.map (fun e => e.visitor_id)).dedup).length

/-- The summand `int(e.data.get('duration_seconds', 0))` of line 246 for
one engagement event (its `data` bag is truthy at the call site). -/
def durTerm (e : Event) : Except String Int :=
  pyIntCast ((dictGet (e.data.getD []) "duration_seconds").getD (PyVal.int 0))

/-- One step of the running sum of line 246: add the event's duration term
to the accumulator, propagating a cast error. -/
def durStep (acc : Int) (e : Event) : Except String Int := do
  let n ← durTerm e
  pure (acc + n)

/-- The `total_duration` sum of line 246:
`sum(int(e.data.get('duration_seconds', 0)) for e in engagement_events if e.data)`
where `engagement_events` filters `event_type == 'user_engagement'`
(line 245). A non-numeric cast raises, aborting the sum. -/
def totalDurationE (events : List Event) : Except String Int :=
  (events.filter (fun e => e.event_type == "user_engagement" && pyTruthyData e.data)).foldlM
    durStep 0

/-- The per-pageview acquisition label of lines 252-263: an explicitly
truthy `data['source']` becomes `"<source> (UTM)"`, otherwise the
classifier runs on referrer/url/user agent. -/
def sourceLabel (e : Event) : String :=
  let utm := if pyTruthyData e.data then dictGet (e.data.getD []) "source" else none
  match utm with
  | some v => if pyTruthy v then pyStr v ++ " (UTM)" else classify e
  | none => classify e

/-- The `sources` tally of lines 250-265 (dict insertion order kept). -/
def tallySources (events : List Event) : List (String × Nat) :=
  events.foldl
    (fun acc e => if e.event_type == "pageview" then bump acc (sourceLabel e) else acc) []

/-- The `pages` tally of lines 270-274. -/
def tallyPages (events : List Event) : List (String × Nat) :=
  events.foldl
    (fun acc e =>
      if e.event_type == "pageview" then bump acc (normalize_url (e.url.getD "")) else acc) []

/-- The device bucket of lines 282-286. -/
def deviceOf (e : Event) : String :=
  let ua := strLower (e.user_agent.getD "")
  if strHas ua "mobile" || strHas ua "android" || strHas ua "iphone" then "Mobile"
  else "Desktop"

/-- The `devices` tally of lines 279-287. -/
def tallyDevices (events : List Event) : List (String × Nat) :=
  events.foldl
    (fun acc e => if e.event_type == "pageview" then bump acc (deviceOf e) else acc) []

/-- Insert into a count-descending list, after every entry with a count at
least as large (so earlier-tallied entries win ties). -/
def insertByCountDesc (x : String × Nat) : List (String × Nat) → List (String × Nat)
  | [] => [x]
  | y :: rest => if y.2 < x.2 then x :: y :: rest else y :: insertByCountDesc x rest

/-- Python's `sorted(items, key=lambda x: x[1], reverse=True)`: stable descending
sort by count (ties keep first-encountered order), as a stable insertion
sort. -/
def sortByCountDesc (l : List (String × Nat)) : List (String × Nat) :=
  l.foldl (fun acc x => insertByCountDesc x acc) []

/-- Model of `get_analytics_stats` (lines 228-301): the whole computation runs in
one `try`; the only failure point in the body is the `int()` cast inside
`total_duration`, and any such error makes the route return the single
`error` report instead of the stats dict (line 301). The success value is
the dict literal of lines 289-297, as an ordered key/value list. -/
def get_analytics_stats (events : List Event) : Except String (List (String × StatVal)) :=
  let total_users := nUsers events
  let total_sessions := nSessions events
  let page_views := (events.filter (fun e => e.event_type == "pageview")).length
  match totalDurationE events with
  | Except.error m => Except.error m
  | Except.ok total_duration =>
    let avg_engagement_time : ℚ :=
      if 0 < total_sessions then pyRound1 (Rat.divInt total_duration (total_sessions : ℤ))
      else 0
    let top_sources := (sortByCountDesc (tallySources events)).take 5
    let top_pages := (sortByCountDesc (tallyPages events)).take 5
    let devices := tallyDevices events
    Except.ok
      [("users", StatVal.nat total_users),
       ("sessions", StatVal.nat total_sessions),
       ("page_views", StatVal.nat page_views),
       ("avg_engagement_time", StatVal.rat avg_engagement_time),
       ("top_sources", StatVal.pairs top_sources),
       ("top_pages", StatVal.pairs top_pages),
       ("devices", StatVal.pairs devices)]

/-- Field lookup in a stats report (`data["k"]` on the JSON the route
returns); `none` on the error report. -/
def lookupStat (r : Except String (List (String × StatVal))) (k : String) : Option StatVal :=
  match r with
  | Except.ok l => (l.find? (fun p => p.1 == k)).map (fun p => p.2)
  | Except.error _ => none

/-! ## Concrete inputs used by the claim theorems -/

/-- Two pageviews of `/` in one session: normalized category sequence
`[Home, Home]`. -/
def exHomeHome : List Event :=
  [{ event_type := "pageview", url := some "https://x.com/", session_id := "s1",
     visitor_id := "v1" },
   { event_type := "pageview", url := some "https://x.com/", session_id := "s1",
     visitor_id := "v1" }]

/-- Four engagement events over two sessions carrying the durations
`[100, 2000, -5, 90000]`. -/
def exDurations : List Event :=
  [{ event_type := "user_engagement", session_id := "s1", visitor_id := "v1",
     data := some [("duration_seconds", PyVal.int 100)] },
   { event_type := "user_engagement", session_id := "s1", visitor_id := "v1",
     data := some [("duration_seconds", PyVal.int 2000)] },
   { event_type := "user_engagement", session_id := "s2", visitor_id := "v2",
     data := some [("duration_seconds", PyVal.int (-5))] },
   { event_type := "user_engagement", session_id := "s2", visitor_id := "v2",
     data := some [("duration_seconds", PyVal.int 90000)] }]

/-- One engagement event whose `duration_seconds` is a non-numeric string,
so `int()` raises. -/
def exBadDuration : List Event :=
  [{ event_type := "user_engagement", session_id := "s1", visitor_id := "v1",
     data := some [("duration_seconds", PyVal.str "oops")] }]

/-- An engagement event with a NULL `data` bag. -/
def evNullBag : Event :=
  { event_type := "user_engagement", session_id := "s", visitor_id := "v" }

/-- An engagement event whose non-empty `data` bag lacks
`duration_seconds`. -/
def evNoDuration : Event :=
  { event_type := "user_engagement", session_id := "s", visitor_id := "v",
    data := some [("other", PyVal.int 1)] }

theorem except_bind_ok {ε α β : Type} (a : α) (f : α → Except ε β) :
    (Except.ok a >>= f : Except ε β) = f a := rfl

theorem except_bind_err {ε α β : Type} (m : ε) (f : α → Except ε β) :
    (Except.error m >>= f : Except ε β) = Except.error m := rfl

/-! ## Claim theorems -/

/-- C4 counterexample: the string `"not a url"` does not make `urlparse`
raise — its path is the whole string, which falls through every prefix rule
and is returned literally — so `normalize_url "not a url"` is not
`"Unknown"`. -/
theorem c4_counterexample : ¬ normalize_url "not a url" = "Unknown" := by decide

/-- C4 (amended): for every URL string on which parsing raises,
`normalize_url` returns `"Unknown"`; the string `"not a url"` parses
successfully and is returned as its own literal path. -/
theorem c4_amended :
    (∀ (url msg : String), urlparse url = Except.error msg → normalize_url url = "Unknown")
    ∧ normalize_url "not a url" = "not a url" := by
  constructor
  · intro url msg h
    simp [normalize_url, h]
  · decide

/-- C4 witness: `"http://[::1"` (unbalanced bracket) makes parsing raise,
and `normalize_url` maps it to `"Unknown"`. -/
theorem c4_witness : normalize_url "http://[::1" = "Unknown" :=
  c4_amended.1 "http://[::1" "Invalid IPv6 URL" (by decide)

/-- C5: whenever the landing URL parses and its query string carries a
`utm_source` parameter, the classifier's result is the UTM mapping of the
lower-cased first value — independent of the referrer and user-agent
arguments — and in particular
`classify_source(None, "https://x.com/?utm_source=google", "")` is
`"Google Search"`. -/
theorem c5_utm_override (referrer user_agent current_url : String) (p : UrlParts)
    (v : String) (vs : List String)
    (hp : urlparse current_url = Except.ok p)
    (hq : qsLookup (parse_qs p.query) "utm_source" = some (v :: vs)) :
    normalize_referrer referrer current_url user_agent =
      (if strLower v = "wechat" then "WeChat"
       else if strLower v = "dingtalk" then "DingTalk"
       else if strLower v = "google" then "Google Search"
       else pyCapitalize (strLower v) ++ " (UTM)")
    ∧ normalize_referrer "" "https://x.com/?utm_source=google" "" = "Google Search" := by
  constructor
  · simp [normalize_referrer, utmStep, hp, hq, utmMap]
  · decide

/-- C5 witness: `utm_source=dingtalk` overrides both a Google referrer and
a WeChat user agent. -/
theorem c5_witness :
    normalize_referrer "https://google.com/" "https://x.com/?utm_source=dingtalk"
      "Mozilla micromessenger" = "DingTalk"
    ∧ normalize_referrer "" "https://x.com/?utm_source=google" "" = "Google Search" := by
  have h := c5_utm_override "https://google.com/" "Mozilla micromessenger"
    "https://x.com/?utm_source=dingtalk"
    (UrlParts.mk "https" "x.com" "/" "utm_source=dingtalk" "") "dingtalk" []
    (by decide) (by decide)
  exact ⟨h.1.trans (by decide), h.2⟩

/-- C6 counterexample: `https://x.com:8080/page2` and
`https://x.com/page1` have the same host `x.com`, yet the classifier does
not return `"Internal"` — the comparison is on the full netloc, which
keeps the explicit port. -/
theorem c6_counterexample :
    urlHost "https://x.com:8080/page2" = some "x.com"
    ∧ urlHost "https://x.com/page1" = some "x.com"
    ∧ normalize_referrer "https://x.com:8080/page2" "https://x.com/page1" "" = "x.com:8080"
    ∧ ¬ ("x.com:8080" : String) = "Internal" := by decide

/-- C6 (amended): with no UTM override and no user-agent match, a present
referrer whose parsed netloc equals the landing URL's parsed netloc
classifies as `"Internal"`; the comparison ignores scheme and path but is
on the literal `host[:port]` netloc, so an explicit port (or case
difference) defeats it. -/
theorem c6_amended (referrer current_url user_agent : String) (pr pc : UrlParts)
    (h1 : utmStep current_url = none) (h2 : uaStep user_agent = none)
    (h3 : ¬ referrer = "") (h4 : urlparse referrer = Except.ok pr)
    (h5 : urlparse current_url = Except.ok pc) (h6 : pr.netloc = pc.netloc) :
    normalize_referrer referrer current_url user_agent = "Internal" := by
  simp [normalize_referrer, h1, h2, refStep, h3, h4, h5, h6]

/-- C6 witness: equal netlocs with different schemes and paths classify as
`"Internal"`. -/
theorem c6_witness :
    normalize_referrer "http://x.com/page2" "https://x.com/page1" "" = "Internal" :=
  c6_amended "http://x.com/page2" "https://x.com/page1" ""
    (UrlParts.mk "http" "x.com" "/page2" "" "") (UrlParts.mk "https" "x.com" "/page1" "" "")
    (by decide) (by decide) (by decide) (by decide) (by decide) (by decide)

/-- C2: on the category sequence `[Home, Home]` the code does emit a
Step1→Step2 link — the suppression guard compares the suffixed labels
`"Home (Step 1)"` and `"Home (Step 2)"`, which are never equal, so
identical consecutive categories are not suppressed. -/
theorem c2_selfloop_emitted :
    normalize_url "https://x.com/" = "Home"
    ∧ linkCount (get_sankey_data exHomeHome) ("Home (Step 1)", "Home (Step 2)") = some 1 := by
  decide

/-- C1 counterexample: over engagement durations `[100, 2000, -5, 90000]`
in two sessions, the code discards and caps nothing: the sum is `92095`
and the reported average is `92095/2 = 46047.5`, not `950.0`. -/
theorem c1_counterexample :
    nSessions exDurations = 2
    ∧ (exDurations.map (fun e => (dictGet (e.data.getD []) "duration_seconds").getD
        (PyVal.int 0)))
      = [PyVal.int 100, PyVal.int 2000, PyVal.int (-5), PyVal.int 90000]
    ∧ lookupStat (get_analytics_stats exDurations) "avg_engagement_time"
      = some (StatVal.rat (Rat.divInt 92095 2))
    ∧ ¬ (Rat.divInt 92095 2 = Rat.divInt 950 1) := by decide

/-- C1 (amended): `avg_engagement_time` is the raw sum of
`int(data.get('duration_seconds', 0))` over `user_engagement` events with
a truthy data bag — no validity filtering, no capping — divided by the
distinct-session count when positive (else 0) and rounded to one decimal;
over `[100, 2000, -5, 90000]` with 2 sessions this yields `46047.5`. -/
theorem c1_amended (events : List Event) (s : ℤ)
    (h : totalDurationE events = Except.ok s) :
    lookupStat (get_analytics_stats events) "avg_engagement_time"
      = some (StatVal.rat (if 0 < nSessions events then
          pyRound1 (Rat.divInt s ((nSessions events : ℤ))) else 0))
    ∧ lookupStat (get_analytics_stats exDurations) "avg_engagement_time"
      = some (StatVal.rat (Rat.divInt 92095 2)) := by
  constructor
  · simp only [get_analytics_stats, h]
    rfl
  · decide

/-- C1 witness: the amended statement applied at the four-duration input,
whose raw sum is `92095`. -/
theorem c1_witness :
    lookupStat (get_analytics_stats exDurations) "avg_engagement_time"
      = some (StatVal.rat (if 0 < nSessions exDurations then
          pyRound1 (Rat.divInt 92095 ((nSessions exDurations : ℤ))) else 0)) :=
  (c1_amended exDurations 92095 (by decide)).1

/-- C3 counterexample: the stats report of the code carries exactly seven
fields; there is no `user_types` breakdown and no `trend` series. -/
theorem c3_counterexample :
    get_analytics_stats [] = Except.ok
      [("users", StatVal.nat 0), ("sessions", StatVal.nat 0), ("page_views", StatVal.nat 0),
       ("avg_engagement_time", StatVal.rat 0), ("top_sources", StatVal.pairs []),
       ("top_pages", StatVal.pairs []), ("devices", StatVal.pairs [])]
    ∧ lookupStat (get_analytics_stats []) "user_types" = none
    ∧ lookupStat (get_analytics_stats []) "trend" = none := by decide

/-- C3 (amended): every successful stats report consists of exactly the
keys `users`, `sessions`, `page_views`, `avg_engagement_time`,
`top_sources`, `top_pages`, `devices`, in this order; no `user_types` or
`trend` field is computed. -/
theorem c3_amended (events : List Event) (fields : List (String × StatVal))
    (h : get_analytics_stats events = Except.ok fields) :
    fields.map Prod.fst =
      ["users", "sessions", "page_views", "avg_engagement_time",
       "top_sources", "top_pages", "devices"] := by
  cases h' : totalDurationE events with
  | error m => simp [get_analytics_stats, h'] at h
  | ok td =>
    simp only [get_analytics_stats, h', Except.ok.injEq] at h
    subst h
    rfl

/-- C3 witness: the amended statement applied to the empty event list. -/
theorem c3_witness :
    ∃ fields, get_analytics_stats [] = Except.ok fields
      ∧ fields.map Prod.fst =
        ["users", "sessions", "page_views", "avg_engagement_time",
         "top_sources", "top_pages", "devices"] :=
  ⟨[("users", StatVal.nat 0), ("sessions", StatVal.nat 0), ("page_views", StatVal.nat 0),
    ("avg_engagement_time", StatVal.rat 0), ("top_sources", StatVal.pairs []),
    ("top_pages", StatVal.pairs []), ("devices", StatVal.pairs [])],
   by decide,
   c3_amended []
     [("users", StatVal.nat 0), ("sessions", StatVal.nat 0), ("page_views", StatVal.nat 0),
      ("avg_engagement_time", StatVal.rat 0), ("top_sources", StatVal.pairs []),
      ("top_pages", StatVal.pairs []), ("devices", StatVal.pairs [])] (by decide)⟩

/-- C10: in the engagement-time sum, an engagement event with a falsy data
bag (absent or empty) contributes nothing, and one whose non-empty bag
lacks `duration_seconds` contributes the default 0 — not an error. -/
theorem c10_duration_defaults (e e' : Event) (rest : List Event)
    (d : List (String × PyVal))
    (h1 : e.event_type = "user_engagement") (h2 : pyTruthyData e.data = false)
    (h3 : e'.event_type = "user_engagement") (h4 : e'.data = some d) (h5 : ¬ d = [])
    (h6 : dictGet d "duration_seconds" = none) :
    totalDurationE (e :: rest) = totalDurationE rest
    ∧ totalDurationE (e' :: rest) = totalDurationE rest
    ∧ totalDurationE [e'] = Except.ok 0 := by
  have hkeep : (e'.event_type == "user_engagement" && pyTruthyData e'.data) = true := by
    simp [h3, h4, pyTruthyData, h5]
  have hterm : durTerm e' = Except.ok 0 := by
    simp [durTerm, h4, h6, pyIntCast]
  refine ⟨?_, ?_, ?_⟩
  · simp [totalDurationE, List.filter_cons, h2]
  · simp [totalDurationE, List.filter_cons, hkeep, List.foldlM_cons, durStep, hterm,
      except_bind_ok]
  · simp [totalDurationE, List.filter_cons, hkeep, List.foldlM_cons, durStep, hterm,
      except_bind_ok]

/-- C10 witness: a NULL-bag engagement event and one with a bag lacking
`duration_seconds`, both leaving the sum at 0. -/
theorem c10_witness :
    totalDurationE [evNullBag] = totalDurationE []
    ∧ totalDurationE [evNoDuration] = totalDurationE []
    ∧ totalDurationE [evNoDuration] = Except.ok 0 :=
  c10_duration_defaults evNullBag evNoDuration [] [("other", PyVal.int 1)]
    (by decide) (by decide) (by decide) (by decide) (by decide) (by decide)

/-- Helper for C8: if some event of the list has a failing duration term,
the running engagement sum fails. -/
theorem foldlM_durStep_error (l : List Event) :
    ∀ acc : Int, (∃ e ∈ l, ∃ m, durTerm e = Except.error m) →
      ∃ m, l.foldlM durStep acc = Except.error m := by
  induction l with
  | nil => intro acc h; simp at h
  | cons x xs ih =>
    intro acc h
    obtain ⟨e, he, m, hm⟩ := h
    rcases List.mem_cons.mp he with rfl | hxs
    · refine ⟨m, ?_⟩
      simp [List.foldlM_cons, durStep, hm, except_bind_err]
    · cases hx : durStep acc x with
      | error m' => exact ⟨m', by simp [List.foldlM_cons, hx, except_bind_err]⟩
      | ok a =>
        obtain ⟨m', hm'⟩ := ih a ⟨e, hxs, m, hm⟩
        exact ⟨m', by simp [List.foldlM_cons, hx, except_bind_ok, hm']⟩

/-- C8: if any event of the window is a `user_engagement` event whose
truthy data bag makes the `int()` cast of `duration_seconds` raise, the
whole stats computation aborts: the caller gets the single error report
and no stats fields. -/
theorem c8_abort_on_cast_error (events : List Event) (e : Event)
    (d : List (String × PyVal)) (m : String)
    (he : e ∈ events) (h1 : e.event_type = "user_engagement") (h2 : e.data = some d)
    (h3 : ¬ d = [])
    (h4 : pyIntCast ((dictGet d "duration_seconds").getD (PyVal.int 0)) = Except.error m) :
    ∃ msg, get_analytics_stats events = Except.error msg := by
  have hterm : durTerm e = Except.error m := by
    simp [durTerm, h2, h4]
  have hmem : e ∈ events.filter
      (fun e => e.event_type == "user_engagement" && pyTruthyData e.data) := by
    refine List.mem_filter.mpr ⟨he, ?_⟩
    simp [h1, h2, pyTruthyData, h3]
  obtain ⟨msg, hmsg⟩ := foldlM_durStep_error _ 0 ⟨e, hmem, m, hterm⟩
  have htd : totalDurationE events = Except.error msg := hmsg
  exact ⟨msg, by simp [get_analytics_stats, htd]⟩

/-- C8 witness: a single engagement event with `duration_seconds = "oops"`
makes the whole computation return an error report. -/
theorem c8_witness : ∃ msg, get_analytics_stats exBadDuration = Except.error msg :=
  c8_abort_on_cast_error exBadDuration
    { event_type := "user_engagement", session_id := "s1", visitor_id := "v1",
      data := some [("duration_seconds", PyVal.str "oops")] }
    [("duration_seconds", PyVal.str "oops")] "invalid literal for int() with base 10: oops"
    (by decide) (by decide) (by decide) (by decide) (by decide)

/-- Helper for C7: a captured first-touch source survives appending
entries. -/
theorem lookupRef_append_some (l l' : List (String × String)) (sid v : String)
    (h : lookupRef l sid = some v) : lookupRef (l ++ l') sid = some v := by
  induction l with
  | nil => simp [lookupRef] at h
  | cons x xs ih =>
    obtain ⟨k, w⟩ := x
    by_cases hk : k = sid
    · simp [lookupRef, hk] at h ⊢
      exact h
    · simp [lookupRef, hk] at h ⊢
      exact ih h

/-- Helper for C7: appending one new entry to a map that lacks `sid`
resolves `sid` only if the new key is `sid`. -/
theorem lookupRef_append_new (l : List (String × String)) (k v sid : String)
    (h : lookupRef l sid = none) :
    lookupRef (l ++ [(k, v)]) sid = if k = sid then some v else none := by
  induction l with
  | nil => simp [lookupRef]
  | cons x xs ih =>
    obtain ⟨k', w⟩ := x
    by_cases hk : k' = sid
    · simp [lookupRef, hk] at h
    · simp [lookupRef, hk] at h ⊢
      exact ih h

/-- Helper for C7: one `flowStep` never overwrites an already-captured
first-touch source. -/
theorem flowStep_keeps (acc : FlowAcc) (e : Event) (sid v : String)
    (h : lookupRef acc.referrers sid = some v) :
    lookupRef (flowStep acc e).referrers sid = some v := by
  by_cases hc : (lookupRef acc.referrers e.session_id).isSome
  · simpa [flowStep, hc] using h
  · simp only [flowStep, hc, if_neg, Bool.false_eq_true, not_false_iff, ite_false]
    exact lookupRef_append_some _ _ _ _ h

/-- Helper for C7: the fold preserves captured sources. -/
theorem foldl_flowStep_keeps (l : List Event) (acc : FlowAcc) (sid v : String)
    (h : lookupRef acc.referrers sid = some v) :
    lookupRef (l.foldl flowStep acc).referrers sid = some v := by
  induction l generalizing acc with
  | nil => simpa using h
  | cons x xs ih => exact ih (flowStep acc x) (flowStep_keeps acc x sid v h)

/-- Helper for C7: starting from a state with no source for `sid`, the
fold captures exactly the classification of the first event of `sid`. -/
theorem foldl_flowStep_none (l : List Event) (acc : FlowAcc) (sid : String)
    (h : lookupRef acc.referrers sid = none) :
    lookupRef (l.foldl flowStep acc).referrers sid
      = (l.find? (fun e => e.session_id == sid)).map classify := by
  induction l generalizing acc with
  | nil => simpa using h
  | cons x xs ih =>
    by_cases hx : x.session_id = sid
    · have hnone : lookupRef acc.referrers x.session_id = none := by rw [hx]; exact h
      have hcap : lookupRef (flowStep acc x).referrers sid = some (classify x) := by
        simp only [flowStep, hnone, Option.isSome_none, Bool.false_eq_true, not_false_iff,
          ite_false]
        rw [lookupRef_append_new acc.referrers x.session_id (classify x) sid h]
        simp [hx]
      rw [List.foldl_cons, foldl_flowStep_keeps xs (flowStep acc x) sid (classify x) hcap,
        List.find?_cons_of_pos _ (by simp [hx])]
      simp
    · have hnone : lookupRef (flowStep acc x).referrers sid = none := by
        by_cases hc : (lookupRef acc.referrers x.session_id).isSome
        · simpa [flowStep, hc] using h
        · simp only [flowStep, hc, Bool.false_eq_true, not_false_iff, ite_false]
          rw [lookupRef_append_new acc.referrers x.session_id (classify x) sid h]
          simp [hx]
      rw [List.foldl_cons, ih (flowStep acc x) hnone, List.find?_cons_of_neg]
      simp [hx]

/-- C7: over the pageview stream, the captured `firstSource` of a session
equals the classification of that session's first (earliest) pageview
event, and a single accumulation step never overwrites an
already-captured source. -/
theorem c7_first_touch (events : List Event) (sid : String) :
    lookupRef (build_flow_acc events).referrers sid
      = ((events.filter (fun e => e.event_type == "pageview")).find?
          (fun e => e.session_id == sid)).map classify
    ∧ ∀ (acc : FlowAcc) (e : Event) (v : String),
        lookupRef acc.referrers sid = some v →
        lookupRef (flowStep acc e).referrers sid = some v := by
  constructor
  · exact foldl_flowStep_none _ (FlowAcc.mk [] []) sid rfl
  · intro acc e v h
    exact flowStep_keeps acc e sid v h

/-- A session whose first pageview has a Google referrer and whose second
has a Bing referrer. -/
def exFirstTouch : List Event :=
  [{ event_type := "pageview", url := some "https://x.com/a",
     referrer := some "https://google.com/", session_id := "s1", visitor_id := "v1" },
   { event_type := "pageview", url := some "https://x.com/b",
     referrer := some "https://bing.com/", session_id := "s1", visitor_id := "v1" }]

/-- C7 witness: the first-touch source of the Google-then-Bing session is
`"Google Search"`, and a step on an unrelated event keeps a captured
source. -/
theorem c7_witness :
    lookupRef (build_flow_acc exFirstTouch).referrers "s1" = some "Google Search"
    ∧ lookupRef (flowStep (FlowAcc.mk [] [("s1", "Google Search")]) evNullBag).referrers "s1"
      = some "Google Search" := by
  have h := c7_first_touch exFirstTouch "s1"
  exact ⟨h.1.trans (by decide),
    h.2 (FlowAcc.mk [] [("s1", "Google Search")]) evNullBag "Google Search" (by decide)⟩

/-- Helper for C9: bumping a counter keeps every count at least 1. -/
theorem bump_pos {α : Type} [DecidableEq α] (l : List (α × Nat)) (k : α)
    (h : ∀ x ∈ l, 1 ≤ x.2) : ∀ x ∈ bump l k, 1 ≤ x.2 := by
  induction l with
  | nil =>
    intro x hx
    simp [bump] at hx
    simp [hx]
  | cons y ys ih =>
    obtain ⟨k', n⟩ := y
    intro x hx
    by_cases hk : k' = k
    · rw [bump, if_pos hk] at hx
      rcases List.mem_cons.mp hx with rfl | hmem
      · exact Nat.succ_le_succ (Nat.zero_le n)
      · exact h x (List.mem_cons_of_mem _ hmem)
    · rw [bump, if_neg hk] at hx
      rcases List.mem_cons.mp hx with rfl | hmem
      · exact h (k', n) (List.mem_cons_self _ _)
      · exact ih (fun z hz => h z (List.mem_cons_of_mem _ hz)) x hmem

/-- Helper for C9: the endpoints referenced after a bump are the bumped
key's endpoints together with the previously referenced ones. -/
theorem bump_endpoints (l : List ((String × String) × Nat)) (k : String × String)
    (x : String) :
    (∃ e ∈ bump l k, x = e.1.1 ∨ x = e.1.2)
      ↔ (x = k.1 ∨ x = k.2) ∨ (∃ e ∈ l, x = e.1.1 ∨ x = e.1.2) := by
  induction l with
  | nil => simp [bump]
  | cons y ys ih =>
    obtain ⟨ky, n⟩ := y
    by_cases hk : ky = k
    · subst hk
      constructor
      · rintro ⟨e, he, hxe⟩
        rw [bump, if_pos rfl] at he
        rcases List.mem_cons.mp he with rfl | hmem
        · exact Or.inl hxe
        · exact Or.inr ⟨e, List.mem_cons_of_mem _ hmem, hxe⟩
      · intro h
        rw [bump, if_pos rfl]
        rcases h with hk1 | ⟨e, he, hxe⟩
        · exact ⟨(ky, n + 1), List.mem_cons_self _ _, hk1⟩
        · rcases List.mem_cons.mp he with rfl | hmem
          · exact ⟨(ky, n + 1), List.mem_cons_self _ _, hxe⟩
          · exact ⟨e, List.mem_cons_of_mem _ hmem, hxe⟩
    · constructor
      · rintro ⟨e, he, hxe⟩
        rw [bump, if_neg hk] at he
        rcases List.mem_cons.mp he with rfl | hmem
        · exact Or.inr ⟨(ky, n), List.mem_cons_self _ _, hxe⟩
        · rcases ih.mp ⟨e, hmem, hxe⟩ with h1 | ⟨f, hf, hxf⟩
          · exact Or.inl h1
          · exact Or.inr ⟨f, List.mem_cons_of_mem _ hf, hxf⟩
      · intro h
        rw [bump, if_neg hk]
        rcases h with h1 | ⟨e, he, hxe⟩
        · rcases ih.mpr (Or.inl h1) with ⟨f, hf, hxf⟩
          exact ⟨f, List.mem_cons_of_mem _ hf, hxf⟩
        · rcases List.mem_cons.mp he with rfl | hmem
          · exact ⟨(ky, n), List.mem_cons_self _ _, hxe⟩
          · rcases ih.mpr (Or.inr ⟨e, hmem, hxe⟩) with ⟨f, hf, hxf⟩
            exact ⟨f, List.mem_cons_of_mem _ hf, hxf⟩

/-- The two invariants of the links/nodes accumulation: the node set is
exactly the endpoints referenced by the links, and every link count is at
least 1. -/
def FlowInv (g : FlowGraph) : Prop :=
  (∀ x, x ∈ g.nodes ↔ ∃ e ∈ g.links, x = e.1.1 ∨ x = e.1.2)
  ∧ ∀ e ∈ g.links, 1 ≤ e.2

/-- Helper for C9: `addLink` preserves the invariants. -/
theorem addLink_inv (g : FlowGraph) (s t : String) (h : FlowInv g) :
    FlowInv (addLink g s t) := by
  constructor
  · intro x
    show x ∈ insert s (insert t g.nodes) ↔ _
    rw [Finset.mem_insert, Finset.mem_insert, h.1 x]
    rw [show (addLink g s t).links = bump g.links (s, t) from rfl,
      bump_endpoints g.links (s, t) x]
    constructor
    · rintro (rfl | rfl | hexists)
      · exact Or.inl (Or.inl rfl)
      · exact Or.inl (Or.inr rfl)
      · exact Or.inr hexists
    · rintro (hk | hexists)
      · rcases hk with rfl | rfl
        · exact Or.inl rfl
        · exact Or.inr (Or.inl rfl)
      · exact Or.inr (Or.inr hexists)
  · exact bump_pos g.links (s, t) h.2

/-- Helper for C9: stage 0 preserves the invariants. -/
theorem stage0_inv (refs : List (String × String)) (sid : String) (urls : List String)
    (g : FlowGraph) (h : FlowInv g) : FlowInv (stage0 refs sid urls g) := by
  cases urls with
  | nil => exact h
  | cons u0 rest =>
    rw [stage0]
    split
    · exact h
    · exact addLink_inv _ _ _ h

/-- Helper for C9: stage 1 preserves the invariants. -/
theorem stage1_inv (urls : List String) (g : FlowGraph) (h : FlowInv g) :
    FlowInv (stage1 urls g) := by
  rcases urls with _ | ⟨u0, _ | ⟨u1, rest⟩⟩
  · exact h
  · exact h
  · rw [stage1]
    split
    · exact h
    · exact addLink_inv _ _ _ h

/-- Helper for C9: stage 2 preserves the invariants. -/
theorem stage2_inv (urls : List String) (g : FlowGraph) (h : FlowInv g) :
    FlowInv (stage2 urls g) := by
  rcases urls with _ | ⟨u0, _ | ⟨u1, _ | ⟨u2, rest⟩⟩⟩
  · exact h
  · exact h
  · exact h
  · rw [stage2]
    split
    · exact h
    · exact addLink_inv _ _ _ h

/-- Helper for C9: one session's links preserve the invariants. -/
theorem sessionLinks_inv (refs : List (String × String)) (g : FlowGraph) (sid : String)
    (urls : List String) (h : FlowInv g) : FlowInv (sessionLinks refs g sid urls) := by
  cases urls with
  | nil => exact h
  | cons u0 rest =>
    exact stage2_inv _ _ (stage1_inv _ _ (stage0_inv refs sid _ _ h))

/-- Helper for C9: the whole fold over sessions preserves the invariants,
starting from the empty graph. -/
theorem build_flow_graph_inv (refs : List (String × String))
    (paths : List (String × List String)) : FlowInv (build_flow_graph refs paths) := by
  suffices haux : ∀ (ps : List (String × List String)) (g : FlowGraph), FlowInv g →
      FlowInv (ps.foldl (fun g p => sessionLinks refs g p.1 p.2) g) by
    refine haux paths (FlowGraph.mk [] ∅) ⟨fun x => ?_, ?_⟩
    · simp
    · simp
  intro ps
  induction ps with
  | nil => intro g hg; exact hg
  | cons p ps ih =>
    intro g hg
    exact ih _ (sessionLinks_inv refs g p.1 p.2 hg)

/-- C9: for every first-touch map and every set of session paths, the flow
graph's node set is exactly the set of endpoints referenced by its links
(no isolated nodes), and every emitted link has a count of at least 1. -/
theorem c9_nodes_links (referrers : List (String × String))
    (paths : List (String × List String)) :
    (∀ x, x ∈ (build_flow_graph referrers paths).nodes
        ↔ ∃ e ∈ (build_flow_graph referrers paths).links, x = e.1.1 ∨ x = e.1.2)
    ∧ ∀ e ∈ (build_flow_graph referrers paths).links, 1 ≤ e.2 :=
  build_flow_graph_inv referrers paths

/-- One-session path set used to witness C9. -/
def exPaths : List (String × List String) := [("s1", ["Home"])]

/-- First-touch map used to witness C9. -/
def exRefs : List (String × String) := [("s1", "Google Search")]

/-- C9 witness: on the one-session input the Step-1 node is present
because its link is, and that link's count is at least 1. -/
theorem c9_witness :
    ("Home (Step 1)" ∈ (build_flow_graph exRefs exPaths).nodes)
    ∧ 1 ≤ ((("Google Search (Source)", "Home (Step 1)"), 1) : (String × String) × Nat).2 := by
  have h := c9_nodes_links exRefs exPaths
  constructor
  · exact (h.1 "Home (Step 1)").mpr
      ⟨(("Google Search (Source)", "Home (Step 1)"), 1), by decide, by decide⟩
  · exact h.2 (("Google Search (Source)", "Home (Step 1)"), 1) (by decide)
